import Mathlib

/-!
Shallow embedding of the wraiths-core service template
(`templates/service-template/app.py`) and the HTTP probe endpoints of
`src/main.py`, with theorems checking the specification's claims about them.

JSON values are modelled by the inductive `JVal`; Python dictionaries by
association lists `List (String × JVal)`.  The behaviour of
`subprocess.run` is modelled by an oracle `Exec` mapping the command, the
shell flag and the timeout value to one of three outcomes: normal
completion, `TimeoutExpired`, or any other exception.  A raised Python
exception is modelled by `Except.error` carrying the stringified exception.
-/

namespace Wraiths

/-- JSON values (the image of `json.loads`). Numbers are modelled as
integers, which covers every value the claims exercise. -/
inductive JVal where
  | null : JVal
  | bool : Bool → JVal
  | num : Int → JVal
  | str : String → JVal
  | arr : List JVal → JVal
  | obj : List (String × JVal) → JVal
  deriving Repr

/-- Python truthiness (`bool(v)`) of a JSON value: `None`, `False`, `0`,
`""`, `[]` and `{}` are falsy, everything else truthy. -/
def truthy : JVal → Bool
  | .null => false
  | .bool b => b
  | .num n => n != 0
  | .str s => s != ""
  | .arr xs => !xs.isEmpty
  | .obj kvs => !kvs.isEmpty

/-- Model of `isinstance(v, str)`. -/
def isStr : JVal → Bool
  | .str _ => true
  | _ => false

/-- Python `d.get(k)`: the value, or `None` when the key is absent. -/
def pyGet (d : List (String × JVal)) (k : String) : JVal :=
  (List.lookup k d).getD .null

/-- Python `d.get(k, v)`: the value, or the default `v` when absent. -/
def pyGetD (d : List (String × JVal)) (k : String) (v : JVal) : JVal :=
  (List.lookup k d).getD v

/-- Python `k in d` for a dictionary. -/
def hasKey (d : List (String × JVal)) (k : String) : Bool :=
  (List.lookup k d).isSome

/-- Key lookup inside a JSON object value. -/
def jLookup (j : JVal) (k : String) : Option JVal :=
  match j with
  | .obj kvs => List.lookup k kvs
  | _ => none

/-- The outcome of `subprocess.run(cmd, shell=shell, ..., timeout=t)`:
normal completion with an exit code and captured output, a raised
`subprocess.TimeoutExpired`, or any other raised exception.  The `details`
strings carry `str(e)` of the corresponding exception. -/
inductive ExecOutcome where
  | completed (returncode : Int) (stdout stderr : String) : ExecOutcome
  | timedOut (details : String) : ExecOutcome
  | failed (details : String) : ExecOutcome

/-- Environment oracle: what `subprocess.run` does for a given command
value, shell flag and timeout value. -/
def Exec : Type := JVal → Bool → JVal → ExecOutcome

/-- The message of the `ValueError` raised by `run_cli` when `cmd` is
missing or falsy. -/
def missingCmdMsg : String := "Missing cmd in parameters for demo template."

/-- The function `run_cli(parameters)` from `templates/service-template/app.py`.
`Except.error` models a raised exception (the `ValueError` for a missing
`cmd`); `Except.ok` is the returned dictionary. -/
def run_cli (exec : Exec) (parameters : List (String × JVal)) :
    Except String (List (String × JVal)) :=
  let cmd := pyGet parameters "cmd"
  if truthy cmd = false then
    Except.error missingCmdMsg
  else
    match exec cmd (isStr cmd) (pyGetD parameters "timeout" (.num 300)) with
    | .completed rc out err =>
        .ok [("returncode", .num rc), ("stdout", .str out), ("stderr", .str err)]
    | .timedOut d =>
        .ok [("error", .obj [("message", .str "timeout"), ("details", .str d)])]
    | .failed d =>
        .ok [("error", .obj [("message", .str "execution_failure"), ("details", .str d)])]

/-- The pydantic model `InvokeEvent`: `subject` and `timestamp` are
required strings, `id` and `correlation_id` optional strings, `parameters`
and `meta` default to empty dictionaries. -/
structure InvokeEvent where
  subject : String
  id : Option String
  correlation_id : Option String
  timestamp : String
  parameters : List (String × JVal)
  meta : List (String × JVal)

/-- Validation of a required string field (pydantic: missing or
non-string value raises a `ValidationError`). -/
def fieldStr (fields : List (String × JVal)) (k : String) : Except String String :=
  match List.lookup k fields with
  | some (.str s) => .ok s
  | some _ => .error ("validation error for InvokeEvent: " ++ k ++ ": string required")
  | none => .error ("validation error for InvokeEvent: " ++ k ++ ": field required")

/-- Validation of an `Optional[str]` field: absent or `null` gives `None`. -/
def fieldOptStr (fields : List (String × JVal)) (k : String) :
    Except String (Option String) :=
  match List.lookup k fields with
  | none => .ok none
  | some .null => .ok none
  | some (.str s) => .ok (some s)
  | some _ => .error ("validation error for InvokeEvent: " ++ k ++ ": string or null required")

/-- Validation of a `Dict[str, Any]` field with `default_factory=dict`. -/
def fieldDict (fields : List (String × JVal)) (k : String) :
    Except String (List (String × JVal)) :=
  match List.lookup k fields with
  | none => .ok []
  | some (.obj kvs) => .ok kvs
  | some _ => .error ("validation error for InvokeEvent: " ++ k ++ ": mapping required")

/-- The construction `InvokeEvent(**json.loads(payload))`: validate a decoded JSON value
against the pydantic model.  A non-object payload cannot be splatted as
keyword arguments and raises. -/
def decodeInvokeEvent : JVal → Except String InvokeEvent
  | .obj fields => do
      let subject ← fieldStr fields "subject"
      let id ← fieldOptStr fields "id"
      let correlation_id ← fieldOptStr fields "correlation_id"
      let timestamp ← fieldStr fields "timestamp"
      let parameters ← fieldDict fields "parameters"
      let meta ← fieldDict fields "meta"
      .ok ⟨subject, id, correlation_id, timestamp, parameters, meta⟩
  | _ => .error "InvokeEvent expects a mapping of keyword arguments"

/-- Python `a or b` on two `Optional[str]` values: the left operand unless
it is falsy (`None` or the empty string), else the right operand as is. -/
def pyOrStr (a b : Option String) : Option String :=
  match a with
  | some s => if s = "" then b else some s
  | none => b

/-- JSON serialization of an `Optional[str]`. -/
def optStrToJVal : Option String → JVal
  | some s => .str s
  | none => .null

/-- The constant `RESULT_SUBJECT = f"tool.result.{DOMAIN}.{TOOL}"`. -/
def resultSubject (domain tool : String) : String :=
  "tool.result." ++ domain ++ "." ++ tool

/-- The `meta` block attached on the normal publish path. -/
def metaObj (domain tool : String) : JVal :=
  .obj [("producer", .str (domain ++ "." ++ tool)), ("version", .str "1.0")]

/-- The minimal envelope published by `handle_invoke`'s `except` branch. -/
def unhandledEnvelope (domain tool : String) (details : String) : JVal :=
  .obj [("subject", .str (resultSubject domain tool)),
        ("timestamp", .str ""),
        ("correlation_id", .null),
        ("error", .obj [("message", .str "unhandled_exception"),
                        ("details", .str details)])]

/-- The body of `handle_invoke` after envelope decoding: run the command,
build the outgoing envelope (normal path), or fall back to the minimal
unhandled-exception envelope when decoding or `run_cli` raised.  Returns
the single message published on the result subject. -/
def handleDecoded (domain tool : String) (exec : Exec)
    (dec : Except String InvokeEvent) : JVal :=
  match dec with
  | .error e => unhandledEnvelope domain tool e
  | .ok evt =>
      match run_cli exec evt.parameters with
      | .error e => unhandledEnvelope domain tool e
      | .ok result =>
          let base := [("subject", JVal.str (resultSubject domain tool)),
                       ("timestamp", JVal.str evt.timestamp),
                       ("correlation_id", optStrToJVal (pyOrStr evt.id evt.correlation_id)),
                       ("meta", metaObj domain tool)]
          match List.lookup "error" result with
          | some v => .obj (base ++ [("error", v)])
          | none => .obj (base ++ [("result", .obj result)])

/-- The handler `handle_invoke(nc, msg)`: the list of messages published for one
inbound message.  The inbound payload is given as the outcome of
`json.loads` (`Except.error` = not valid JSON, carrying the stringified
exception).  Exactly one message is published on every path. -/
def handle_invoke (domain tool : String) (exec : Exec)
    (payload : Except String JVal) : List JVal :=
  [handleDecoded domain tool exec (payload.bind decodeInvokeEvent)]

/-- The `/health` endpoint of the service template: HTTP status and JSON
body. -/
def health : Nat × JVal := (200, .obj [("status", .str "ok")])

/-- The `/health` endpoint of `src/main.py` (`health_check`), reading the
service info stashed on `app.state` with fallbacks. -/
def health_check (info : List (String × JVal)) : Nat × JVal :=
  (200, .obj [("status", .str "healthy"),
              ("service", pyGetD info "service" (.str "wraiths-core")),
              ("version", pyGetD info "version" (.str "1.0.0"))])

/-- The `service_info` dictionary built by `lifespan` at startup; the
service name and version are constants, the rest is runtime metadata. -/
def lifespanServiceInfo (commit branch buildTime env : JVal) :
    List (String × JVal) :=
  [("service", .str "wraiths-core"), ("version", .str "1.0.0"),
   ("commit", commit), ("branch", branch),
   ("build_time", buildTime), ("environment", env)]

/-- One dependency entry blocks readiness when its `required` flag is
truthy and its `connected` flag is not (`info.get("required") and not
info.get("connected")`). -/
def depBlocks (info : List (String × JVal)) : Bool :=
  truthy (pyGet info "required") && !truthy (pyGet info "connected")

/-- The `/ready` endpoint (`readiness` in `src/main.py`): HTTP status and
JSON body, computed from `app.state.started`, `app.state.dependencies`
and `app.state.service_info`. -/
def readiness (started : Bool)
    (deps : List (String × List (String × JVal)))
    (info : List (String × JVal)) : Nat × JVal :=
  let ready := started && deps.all (fun p => !depBlocks p.2)
  ((if ready then 200 else 503),
   .obj [("ready", .bool ready),
         ("dependencies", .obj (deps.map (fun p => (p.1, JVal.obj p.2)))),
         ("service", pyGet info "service"),
         ("environment", pyGet info "environment")])

/-- Projection of a JSON value to a string, when it is one. -/
def jStrOpt : JVal → Option String
  | .str s => some s
  | _ => none

/-- The `error.message` field of a published envelope, when present. -/
def jErrMsg (j : JVal) : Option JVal :=
  (jLookup j "error").bind (fun e => jLookup e "message")

/-- An execution oracle under which every spawned command exits 0 with
stdout `"hi\n"` and empty stderr (the behaviour of `echo hi`). -/
def echoHiExec : Exec := fun _ _ _ => .completed 0 "hi\n" ""

/-- The concrete scenario input of the specification (section 8, item 6):
no `subject` field. -/
def c7Input : JVal :=
  .obj [("timestamp", .str "2025-01-01T00:00:00Z"),
        ("id", .str "abc"),
        ("parameters", .obj [("cmd", .str "echo hi")])]

/-- The concrete scenario input augmented with the `subject` field the
`InvokeEvent` model requires. -/
def c7InputWithSubject : JVal :=
  .obj [("subject", .str "tool.invoke.recon.tool_name"),
        ("timestamp", .str "2025-01-01T00:00:00Z"),
        ("id", .str "abc"),
        ("parameters", .obj [("cmd", .str "echo hi")])]

/-- The correlation value the output actually carries on the normal path,
stated the way the amended claim words it: the input `id` when present and
non-empty, else the input `correlation_id` when present, else null. -/
def amendedCorr (id corr : Option String) : JVal :=
  match id with
  | some s =>
      if s = "" then
        (match corr with | some t => .str t | none => .null)
      else .str s
  | none => match corr with | some t => .str t | none => .null

/-- C3: for every parameters mapping whose `cmd` is present and truthy (so
that a child process is spawned), if the child completes before the
timeout then `run_cli` returns the success shape
`{returncode, stdout, stderr}` with no `error` key, for every exit code,
zero or not. -/
theorem C3_success_shape (exec : Exec) (params : List (String × JVal))
    (rc : Int) (out err : String)
    (hcmd : truthy (pyGet params "cmd") = true)
    (hrun : exec (pyGet params "cmd") (isStr (pyGet params "cmd"))
        (pyGetD params "timeout" (.num 300)) = .completed rc out err) :
    run_cli exec params =
      .ok [("returncode", .num rc), ("stdout", .str out), ("stderr", .str err)] ∧
    hasKey [("returncode", .num rc), ("stdout", .str out), ("stderr", .str err)]
      "error" = false := by
  refine ⟨?_, rfl⟩
  simp [run_cli, hcmd, hrun]

/-- Witness for C3 at a concrete input: command `"x"`, oracle completing
with exit code 7. -/
theorem C3_success_shape_witness :
    run_cli (fun _ _ _ => .completed 7 "o" "e") [("cmd", .str "x")] =
      .ok [("returncode", .num 7), ("stdout", .str "o"), ("stderr", .str "e")] ∧
    hasKey [("returncode", .num 7), ("stdout", .str "o"), ("stderr", .str "e")]
      "error" = false :=
  C3_success_shape (fun _ _ _ => .completed 7 "o" "e") [("cmd", .str "x")]
    7 "o" "e" rfl rfl

/-- C10: for every parameters mapping with `cmd` present and truthy,
`run_cli` never raises: it returns either the success mapping
`{returncode, stdout, stderr}` or a single-entry `error` mapping whose
message is `"timeout"` or `"execution_failure"`. -/
theorem C10_run_cli_total (exec : Exec) (params : List (String × JVal))
    (hcmd : truthy (pyGet params "cmd") = true) :
    (∃ rc out err, run_cli exec params =
        .ok [("returncode", .num rc), ("stdout", .str out), ("stderr", .str err)]) ∨
    (∃ d, run_cli exec params =
        .ok [("error", .obj [("message", .str "timeout"), ("details", .str d)])]) ∨
    (∃ d, run_cli exec params =
        .ok [("error", .obj [("message", .str "execution_failure"),
                             ("details", .str d)])]) := by
  cases hout : exec (pyGet params "cmd") (isStr (pyGet params "cmd"))
      (pyGetD params "timeout" (.num 300)) with
  | completed rc out err => exact Or.inl ⟨rc, out, err, by simp [run_cli, hcmd, hout]⟩
  | timedOut d => exact Or.inr (Or.inl ⟨d, by simp [run_cli, hcmd, hout]⟩)
  | failed d => exact Or.inr (Or.inr ⟨d, by simp [run_cli, hcmd, hout]⟩)

/-- Witness for C10 at a concrete input: command `"x"` with an oracle
raising a generic exception. -/
theorem C10_run_cli_total_witness :
    (∃ rc out err, run_cli (fun _ _ _ => .failed "boom") [("cmd", .str "x")] =
        .ok [("returncode", .num rc), ("stdout", .str out), ("stderr", .str err)]) ∨
    (∃ d, run_cli (fun _ _ _ => .failed "boom") [("cmd", .str "x")] =
        .ok [("error", .obj [("message", .str "timeout"), ("details", .str d)])]) ∨
    (∃ d, run_cli (fun _ _ _ => .failed "boom") [("cmd", .str "x")] =
        .ok [("error", .obj [("message", .str "execution_failure"),
                             ("details", .str d)])]) :=
  C10_run_cli_total (fun _ _ _ => .failed "boom") [("cmd", .str "x")] rfl

/-- C4: when the command execution exceeds the allotted time — the oracle
is consulted at the timeout value read from `parameters.timeout`, with
`300` as the default when the key is absent — the published envelope
carries `error` with message `"timeout"` and details describing the
timeout, and no `result` key. -/
theorem C4_timeout (domain tool : String) (exec : Exec) (evt : InvokeEvent)
    (d : String)
    (hcmd : truthy (pyGet evt.parameters "cmd") = true)
    (hrun : exec (pyGet evt.parameters "cmd") (isStr (pyGet evt.parameters "cmd"))
        (pyGetD evt.parameters "timeout" (.num 300)) = .timedOut d) :
    handleDecoded domain tool exec (.ok evt) =
      .obj [("subject", .str (resultSubject domain tool)),
            ("timestamp", .str evt.timestamp),
            ("correlation_id", optStrToJVal (pyOrStr evt.id evt.correlation_id)),
            ("meta", metaObj domain tool),
            ("error", .obj [("message", .str "timeout"), ("details", .str d)])] ∧
    jLookup (handleDecoded domain tool exec (.ok evt)) "result" = none := by
  have hr : run_cli exec evt.parameters =
      .ok [("error", .obj [("message", .str "timeout"), ("details", .str d)])] := by
    simp [run_cli, hcmd, hrun]
  constructor
  · simp [handleDecoded, hr, List.lookup]
  · simp [handleDecoded, hr, jLookup, List.lookup]

/-- Witness for C4 at a concrete input: a command with an explicit
5-second timeout whose oracle raises `TimeoutExpired`. -/
theorem C4_timeout_witness :
    handleDecoded "recon" "tool_name" (fun _ _ _ => .timedOut "t/o")
      (.ok ⟨"s", some "i", none, "ts", [("cmd", .str "sleep 9"), ("timeout", .num 5)], []⟩) =
      .obj [("subject", .str (resultSubject "recon" "tool_name")),
            ("timestamp", .str "ts"),
            ("correlation_id", optStrToJVal (pyOrStr (some "i") none)),
            ("meta", metaObj "recon" "tool_name"),
            ("error", .obj [("message", .str "timeout"), ("details", .str "t/o")])] ∧
    jLookup (handleDecoded "recon" "tool_name" (fun _ _ _ => .timedOut "t/o")
      (.ok ⟨"s", some "i", none, "ts", [("cmd", .str "sleep 9"), ("timeout", .num 5)], []⟩))
      "result" = none :=
  C4_timeout "recon" "tool_name" (fun _ _ _ => .timedOut "t/o")
    ⟨"s", some "i", none, "ts", [("cmd", .str "sleep 9"), ("timeout", .num 5)], []⟩
    "t/o" rfl rfl

/-- C5: a payload that is not valid JSON, or that fails envelope
validation, still produces exactly one published message: the minimal
envelope with empty timestamp, null correlation_id, and error message
`"unhandled_exception"` with the stringified exception as details.  The
handler returns normally (it is a total function), so the listener is not
terminated. -/
theorem C5_unhandled (domain tool : String) (exec : Exec)
    (payload : Except String JVal) (e : String)
    (hdec : payload.bind decodeInvokeEvent = .error e) :
    handle_invoke domain tool exec payload =
      [.obj [("subject", .str (resultSubject domain tool)),
             ("timestamp", .str ""),
             ("correlation_id", .null),
             ("error", .obj [("message", .str "unhandled_exception"),
                             ("details", .str e)])]] ∧
    (handle_invoke domain tool exec payload).length = 1 := by
  refine ⟨?_, rfl⟩
  simp [handle_invoke, hdec, handleDecoded, unhandledEnvelope]

/-- Witness for C5 at a concrete input: a payload on which `json.loads`
raised. -/
theorem C5_unhandled_witness :
    handle_invoke "recon" "tool_name" echoHiExec
        (.error "Expecting value: line 1 column 1 (char 0)") =
      [.obj [("subject", .str (resultSubject "recon" "tool_name")),
             ("timestamp", .str ""),
             ("correlation_id", .null),
             ("error", .obj [("message", .str "unhandled_exception"),
                             ("details", .str "Expecting value: line 1 column 1 (char 0)")])]] ∧
    (handle_invoke "recon" "tool_name" echoHiExec
        (.error "Expecting value: line 1 column 1 (char 0)")).length = 1 :=
  C5_unhandled "recon" "tool_name" echoHiExec
    (.error "Expecting value: line 1 column 1 (char 0)")
    "Expecting value: line 1 column 1 (char 0)" rfl

/-- C1 counterexample: on an envelope whose parameters lack `cmd`, the
published `error.message` is the generic `"unhandled_exception"` — exactly
the same message as for a payload that is not JSON at all — so the message
does not indicate a missing command. -/
theorem C1_counterexample :
    jErrMsg (handleDecoded "recon" "tool_name" echoHiExec
        (.ok ⟨"s", none, none, "t", [], []⟩)) = some (.str "unhandled_exception") ∧
    jErrMsg (handleDecoded "recon" "tool_name" echoHiExec
        (.error "Expecting value: line 1 column 1 (char 0)")) =
      some (.str "unhandled_exception") :=
  ⟨rfl, rfl⟩

/-- C1 amended: on an envelope whose parameters lack `cmd`, exactly one
envelope is published; its `error` is non-null with message
`"unhandled_exception"` (distinct from the runtime-failure message
`"execution_failure"`, but shared with every other unhandled exception)
and details `"Missing cmd in parameters for demo template."`, which is
what identifies the missing command; no `result` key is present. -/
theorem C1_missing_cmd (domain tool : String) (exec : Exec)
    (payload : Except String JVal) (evt : InvokeEvent)
    (hdec : payload.bind decodeInvokeEvent = .ok evt)
    (hcmd : List.lookup "cmd" evt.parameters = none) :
    handle_invoke domain tool exec payload =
      [.obj [("subject", .str (resultSubject domain tool)),
             ("timestamp", .str ""),
             ("correlation_id", .null),
             ("error", .obj [("message", .str "unhandled_exception"),
                             ("details", .str missingCmdMsg)])]] ∧
    jLookup (handleDecoded domain tool exec (.ok evt)) "result" = none := by
  have hr : run_cli exec evt.parameters = Except.error missingCmdMsg := by
    simp [run_cli, pyGet, hcmd, truthy]
  constructor
  · simp [handle_invoke, hdec, handleDecoded, hr, unhandledEnvelope]
  · simp [handleDecoded, hr, unhandledEnvelope, jLookup, List.lookup]

/-- Witness for C1 at the spec's concrete input (with the required
`subject` field supplied): `parameters` is the empty mapping. -/
theorem C1_missing_cmd_witness :
    handle_invoke "recon" "tool_name" echoHiExec
        (.ok (.obj [("subject", .str "s"), ("timestamp", .str "t"),
                    ("parameters", .obj [])])) =
      [.obj [("subject", .str (resultSubject "recon" "tool_name")),
             ("timestamp", .str ""),
             ("correlation_id", .null),
             ("error", .obj [("message", .str "unhandled_exception"),
                             ("details", .str missingCmdMsg)])]] ∧
    jLookup (handleDecoded "recon" "tool_name" echoHiExec
        (.ok ⟨"s", none, none, "t", [], []⟩)) "result" = none :=
  C1_missing_cmd "recon" "tool_name" echoHiExec
    (.ok (.obj [("subject", .str "s"), ("timestamp", .str "t"),
                ("parameters", .obj [])]))
    ⟨"s", none, none, "t", [], []⟩ rfl rfl

/-- C2 counterexample: the correlation fallback is Python truthiness, not
presence.  With `id` present but equal to the empty string and
`correlation_id` present as `"x"`, the output carries `"x"`, not the
present `id`; and on the degraded path (here: `cmd` missing) the output
correlation is null even though `id = "abc"` is present. -/
theorem C2_counterexample :
    ((jLookup (handleDecoded "recon" "tool_name" echoHiExec
        (.ok ⟨"s", some "", some "x", "t", [("cmd", .str "true")], []⟩))
        "correlation_id").bind jStrOpt = some "x" ∧
      some "x" ≠ (some "" : Option String)) ∧
    (jLookup (handleDecoded "recon" "tool_name" echoHiExec
        (.ok ⟨"s", some "abc", none, "t", [], []⟩)) "correlation_id" =
        some JVal.null ∧
      (jLookup (handleDecoded "recon" "tool_name" echoHiExec
        (.ok ⟨"s", some "abc", none, "t", [], []⟩))
        "correlation_id").bind jStrOpt ≠ some "abc") :=
  ⟨⟨rfl, by decide⟩, ⟨rfl, by decide⟩⟩

/-- C2 amended: whenever the handler reaches the normal publish path
(i.e. `run_cli` returns rather than raises), the output `correlation_id`
equals the input `id` when it is present and non-empty, else the input
`correlation_id` when that is present, else null; on the degraded path it
is always null. -/
theorem C2_correlation (domain tool : String) (exec : Exec) (evt : InvokeEvent)
    (r : List (String × JVal))
    (hr : run_cli exec evt.parameters = .ok r) :
    jLookup (handleDecoded domain tool exec (.ok evt)) "correlation_id" =
      some (amendedCorr evt.id evt.correlation_id) := by
  have hcorr : optStrToJVal (pyOrStr evt.id evt.correlation_id) =
      amendedCorr evt.id evt.correlation_id := by
    cases hid : evt.id with
    | none => cases evt.correlation_id <;> rfl
    | some s =>
        by_cases hs : s = "" <;>
          cases evt.correlation_id <;>
            simp [pyOrStr, optStrToJVal, amendedCorr, hs]
  rw [← hcorr]
  simp only [handleDecoded, hr]
  cases hlk : List.lookup "error" r with
  | some v => rfl
  | none => rfl

/-- Witness for C2 at a concrete input: `id = "a"`, no `correlation_id`,
command succeeding. -/
theorem C2_correlation_witness :
    jLookup (handleDecoded "recon" "tool_name" echoHiExec
        (.ok ⟨"s", some "a", none, "t", [("cmd", .str "x")], []⟩))
      "correlation_id" = some (amendedCorr (some "a") none) :=
  C2_correlation "recon" "tool_name" echoHiExec
    ⟨"s", some "a", none, "t", [("cmd", .str "x")], []⟩
    [("returncode", .num 0), ("stdout", .str "hi\n"), ("stderr", .str "")] rfl

/-- C6: every published envelope contains exactly one of `result` and
`error`; and it carries `meta = {producer: "{domain}.{tool}", version:
"1.0"}`, except on the unhandled-exception fallback path, where `meta` is
omitted. -/
theorem C6_envelope_invariant (domain tool : String) (exec : Exec)
    (payload : Except String JVal) (m : JVal)
    (hm : m ∈ handle_invoke domain tool exec payload) :
    (jLookup m "result" = none ∧ (jLookup m "error").isSome = true ∨
     (jLookup m "result").isSome = true ∧ jLookup m "error" = none) ∧
    (jLookup m "meta" = some (metaObj domain tool) ∨
     jLookup m "meta" = none ∧ jErrMsg m = some (.str "unhandled_exception")) := by
  have hm' : m = handleDecoded domain tool exec (payload.bind decodeInvokeEvent) := by
    simpa [handle_invoke] using hm
  subst hm'
  cases hdec : payload.bind decodeInvokeEvent with
  | error e => exact ⟨Or.inl ⟨rfl, rfl⟩, Or.inr ⟨rfl, rfl⟩⟩
  | ok evt =>
      simp only [handleDecoded]
      cases hr : run_cli exec evt.parameters with
      | error e => exact ⟨Or.inl ⟨rfl, rfl⟩, Or.inr ⟨rfl, rfl⟩⟩
      | ok r =>
          dsimp only
          cases hlk : List.lookup "error" r with
          | some v => exact ⟨Or.inl ⟨rfl, rfl⟩, Or.inl rfl⟩
          | none => exact ⟨Or.inr ⟨rfl, rfl⟩, Or.inl rfl⟩

/-- Witness for C6 at a concrete input: the degraded path for a non-JSON
payload. -/
theorem C6_envelope_invariant_witness :
    (jLookup (unhandledEnvelope "recon" "tool_name" "boom") "result" = none ∧
       (jLookup (unhandledEnvelope "recon" "tool_name" "boom") "error").isSome = true ∨
     (jLookup (unhandledEnvelope "recon" "tool_name" "boom") "result").isSome = true ∧
       jLookup (unhandledEnvelope "recon" "tool_name" "boom") "error" = none) ∧
    (jLookup (unhandledEnvelope "recon" "tool_name" "boom") "meta" =
       some (metaObj "recon" "tool_name") ∨
     jLookup (unhandledEnvelope "recon" "tool_name" "boom") "meta" = none ∧
       jErrMsg (unhandledEnvelope "recon" "tool_name" "boom") =
         some (.str "unhandled_exception")) :=
  C6_envelope_invariant "recon" "tool_name" echoHiExec (.error "boom")
    (unhandledEnvelope "recon" "tool_name" "boom") (List.mem_singleton.mpr rfl)

/-- C7 counterexample: the spec's concrete scenario input has no
`subject` field, which the `InvokeEvent` model requires, so envelope
validation fails and the published message is the unhandled-exception
envelope — it has no `result` key at all, instead of the claimed
`result = {returncode: 0, stdout: "hi\n", stderr: ""}`. -/
theorem C7_counterexample :
    jLookup (handleDecoded "recon" "tool_name" echoHiExec
        ((Except.ok c7Input).bind decodeInvokeEvent)) "result" = none ∧
    jErrMsg (handleDecoded "recon" "tool_name" echoHiExec
        ((Except.ok c7Input).bind decodeInvokeEvent)) =
      some (.str "unhandled_exception") :=
  ⟨rfl, rfl⟩

/-- C7 amended: for the concrete scenario input augmented with the
required `subject` field, under the default configuration and an oracle on
which `echo hi` exits 0 with stdout `"hi\n"` and empty stderr, the single
published output is exactly the claimed envelope. -/
theorem C7_concrete :
    handle_invoke "recon" "tool_name" echoHiExec (.ok c7InputWithSubject) =
      [.obj [("subject", .str "tool.result.recon.tool_name"),
             ("timestamp", .str "2025-01-01T00:00:00Z"),
             ("correlation_id", .str "abc"),
             ("meta", .obj [("producer", .str "recon.tool_name"),
                            ("version", .str "1.0")]),
             ("result", .obj [("returncode", .num 0),
                              ("stdout", .str "hi\n"),
                              ("stderr", .str "")])]] :=
  rfl

/-- C8 counterexample: the core application's health endpoint
(`health_check` in `src/main.py`) reports `status = "healthy"`, with
service and version fields — not the body `{"status": "ok"}` the claim
states for every health endpoint. -/
theorem C8_counterexample :
    jLookup (health_check (lifespanServiceInfo .null .null (.str "bt") (.str "dev"))).2
      "status" = some (.str "healthy") ∧
    (jLookup (health_check (lifespanServiceInfo .null .null (.str "bt") (.str "dev"))).2
      "status").bind jStrOpt ≠ some "ok" :=
  ⟨rfl, by decide⟩

/-- C8 amended: the service template's health endpoint returns HTTP 200
with body `{"status": "ok"}`; the core application's health endpoint
returns HTTP 200 with a body whose `status` field is `"healthy"` (plus
service and version fields), for every service-info state. -/
theorem C8_health (info : List (String × JVal)) :
    health = (200, .obj [("status", .str "ok")]) ∧
    (health_check info).1 = 200 ∧
    jLookup (health_check info).2 "status" = some (.str "healthy") :=
  ⟨rfl, rfl, rfl⟩

/-- Witness for C8 at the concrete startup service info. -/
theorem C8_health_witness :
    health = (200, .obj [("status", .str "ok")]) ∧
    (health_check (lifespanServiceInfo .null .null (.str "b") (.str "dev"))).1 = 200 ∧
    jLookup (health_check (lifespanServiceInfo .null .null (.str "b") (.str "dev"))).2
      "status" = some (.str "healthy") :=
  C8_health (lifespanServiceInfo .null .null (.str "b") (.str "dev"))

/-- C9: the readiness endpoint returns 200 exactly when the application
has started and every dependency whose `required` flag is truthy has a
truthy `connected` flag; otherwise it returns 503; and the body reports
the `ready` flag and the dependency details. -/
theorem C9_readiness (started : Bool)
    (deps : List (String × List (String × JVal)))
    (info : List (String × JVal)) :
    ((readiness started deps info).1 = 200 ↔
      started = true ∧ ∀ p ∈ deps, truthy (pyGet p.2 "required") = true →
        truthy (pyGet p.2 "connected") = true) ∧
    ((readiness started deps info).1 = 200 ∨ (readiness started deps info).1 = 503) ∧
    jLookup (readiness started deps info).2 "ready" =
      some (.bool (started && deps.all (fun p => !depBlocks p.2))) ∧
    jLookup (readiness started deps info).2 "dependencies" =
      some (.obj (deps.map (fun p => (p.1, JVal.obj p.2)))) := by
  have hpt : ∀ a b : Bool, ((!(a && !b)) = true) ↔ (a = true → b = true) := by decide
  have hpt2 : ∀ i : List (String × JVal), ((!depBlocks i) = true) ↔
      (truthy (pyGet i "required") = true → truthy (pyGet i "connected") = true) := by
    intro i
    unfold depBlocks
    exact hpt _ _
  have hiff : (started && deps.all (fun p => !depBlocks p.2)) = true ↔
      (started = true ∧ ∀ p ∈ deps, truthy (pyGet p.2 "required") = true →
        truthy (pyGet p.2 "connected") = true) := by
    rw [Bool.and_eq_true, List.all_eq_true]
    constructor
    · rintro ⟨h1, h2⟩
      exact ⟨h1, fun p hp => (hpt2 p.2).mp (h2 p hp)⟩
    · rintro ⟨h1, h2⟩
      exact ⟨h1, fun p hp => (hpt2 p.2).mpr (h2 p hp)⟩
  have hfst : (readiness started deps info).1 =
      if (started && deps.all (fun p => !depBlocks p.2)) then 200 else 503 := rfl
  refine ⟨?_, ?_, rfl, rfl⟩
  · rw [hfst]
    by_cases h : (started && deps.all (fun p => !depBlocks p.2)) = true
    · rw [if_pos h]
      exact ⟨fun _ => hiff.mp h, fun _ => rfl⟩
    · rw [if_neg h]
      exact ⟨fun hc => absurd hc (by decide), fun hrd => absurd (hiff.mpr hrd) h⟩
  · rw [hfst]
    by_cases h : (started && deps.all (fun p => !depBlocks p.2)) = true
    · rw [if_pos h]; exact Or.inl rfl
    · rw [if_neg h]; exact Or.inr rfl

/-- Witness for C9 at the concrete startup state: started, one optional
dependency that is not connected. -/
theorem C9_readiness_witness :
    (readiness true
      [("nats", [("configured", .bool false), ("connected", .null),
                 ("required", .bool false)])]
      (lifespanServiceInfo .null .null (.str "b") (.str "dev"))).1 = 200 ∨
    (readiness true
      [("nats", [("configured", .bool false), ("connected", .null),
                 ("required", .bool false)])]
      (lifespanServiceInfo .null .null (.str "b") (.str "dev"))).1 = 503 :=
  (C9_readiness true
    [("nats", [("configured", .bool false), ("connected", .null),
               ("required", .bool false)])]
    (lifespanServiceInfo .null .null (.str "b") (.str "dev"))).2.1

end Wraiths
